import Mathlib

/-!
Verification development for the EcoCrop AI backend (`backend/server.py`).

The Python request handlers are embedded shallowly:

* the Mongo document store becomes an explicit `DB` value threaded through
  the handlers (collections are lists, `insert_one` appends, `find_one` is
  `List.find?`, `find().sort().to_list(100)` is filter + sort + take);
* `raise HTTPException` and other Python exceptions become `Except PyErr`;
* the external LLM call in `analyze_crop_with_ai` is modelled by passing the
  collaborator's response text to the function as an argument — the claims
  under study are all about the post-processing of that text;
* `json.loads` is modelled by an executable recursive-descent JSON parser
  (`json_loads`) over the characters of the string.  Numeric literals are
  modelled as integers: fractional/exponent numerals and the non-standard
  `NaN`/`Infinity` extensions are outside the model (no claim touches them);
* `bcrypt.hashpw`/`bcrypt.checkpw` are opaque external functions, passed as
  parameters (`hashpw`, `checkpw`) to the handlers that use them;
* PyJWT's `encode`/`decode` with a shared HS256 secret is modelled by a
  `Token` carrying its payload and a signature string that is a function of
  secret and payload; `decode` checks the signature, then the `exp` claim;
* timestamps (`datetime.now(timezone.utc)`, the JWT `exp` claim) are `Nat`
  seconds; `timedelta(hours=h)` is `h * 3600`.
-/

/-- JSON values as produced by `json.loads`: `null`, booleans, (integer)
numbers, strings, arrays, and objects as association lists in key order. -/
inductive Json where
  | null
  | bool (b : Bool)
  | num (n : Int)
  | str (s : String)
  | arr (elems : List Json)
  | obj (fields : List (String × Json))

/-- Opening brace character (written via its code point). -/
def lbrace : Char := Char.ofNat 123

/-- Closing brace character (written via its code point). -/
def rbrace : Char := Char.ofNat 125

/-- JSON insignificant whitespace, as accepted between tokens (space, tab,
line feed, carriage return, by code point). -/
def jsonWs (c : Char) : Bool :=
  match c.toNat with
  | 32 => true
  | 9 => true
  | 10 => true
  | 13 => true
  | _ => false

/-- Drop leading JSON whitespace from a character stream. -/
def dropWs (cs : List Char) : List Char :=
  match cs with
  | c :: tl => bif jsonWs c then dropWs tl else cs
  | [] => []

/-- Value of a hexadecimal digit, for `\uXXXX` escapes (decimal digits,
then the lowercase and the uppercase letter ranges, by code point). -/
def hexDigitVal (c : Char) : Option Nat :=
  let n := c.toNat
  if n ≥ 48 then
    if n ≤ 57 then some (n - 48)
    else if n ≥ 97 ∧ n ≤ 102 then some (n - 87)
    else if n ≥ 65 ∧ n ≤ 70 then some (n - 55)
    else none
  else none

/-- Decode a single-character escape (`\"`, `\\`, `\/`, `\b`, `\f`, `\n`,
`\r`, `\t`), giving the denoted code point. -/
def unescapeChar : Char → Option Char
  | 'n' => some (Char.ofNat 10)
  | 't' => some (Char.ofNat 9)
  | 'r' => some (Char.ofNat 13)
  | 'b' => some (Char.ofNat 8)
  | 'f' => some (Char.ofNat 12)
  | '"' => some '"'
  | '\\' => some '\\'
  | '/' => some '/'
  | _ => none

/-- Parse the body of a JSON string literal after the opening quote,
returning the decoded characters and the remainder after the closing quote.
Like `json.loads` in its default strict mode, raw control characters inside
the literal are rejected. -/
def parseStringBody : Nat → List Char → Option (List Char × List Char)
  | 0, _ => none
  | _ + 1, [] => none
  | fuel + 1, c :: cs =>
    if c == '"' then some ([], cs)
    else if c == '\\' then
      match cs with
      | 'u' :: h1 :: h2 :: h3 :: h4 :: cs2 => do
        let d1 ← hexDigitVal h1
        let d2 ← hexDigitVal h2
        let d3 ← hexDigitVal h3
        let d4 ← hexDigitVal h4
        let (body, rest) ← parseStringBody fuel cs2
        pure (Char.ofNat (4096 * d1 + 256 * d2 + 16 * d3 + d4) :: body, rest)
      | e :: cs2 => do
        let ch ← unescapeChar e
        let (body, rest) ← parseStringBody fuel cs2
        pure (ch :: body, rest)
      | [] => none
    else if c.toNat < 32 then none
    else do
      let (body, rest) ← parseStringBody fuel cs
      pure (c :: body, rest)

/-- Split a character stream into its leading run of decimal digits and the
remainder. -/
def spanDigits (cs : List Char) : List Char × List Char :=
  match cs with
  | c :: tl =>
    bif c.isDigit then
      match spanDigits tl with
      | (ds, r) => (c :: ds, r)
    else ([], cs)
  | [] => ([], [])

/-- Accumulate decimal digits into a natural number. -/
def digitsToNat : List Char → Nat → Nat
  | [], acc => acc
  | c :: cs, acc => digitsToNat cs (acc * 10 + (c.toNat - 48))

/-- Parse the digits of a JSON integer numeral (sign already consumed).
Leading zeros are rejected as in JSON; a following `.`, `e` or `E` would
start a fractional/exponent part, which is outside this model. -/
def parseNumberTail (neg : Bool) (cs : List Char) : Option (Int × List Char) :=
  let (ds, rest) := spanDigits cs
  match ds with
  | [] => none
  | d :: dtl =>
    if d == '0' && !dtl.isEmpty then none
    else
      let bad := match rest with
        | r :: _ => r == '.' || r == 'e' || r == 'E'
        | [] => false
      if bad then none
      else
        let n : Int := Int.ofNat (digitsToNat ds 0)
        some (if neg then -n else n, rest)

/-- Record a key/value pair in an association list the way Python `dict`
assignment does: an existing key keeps its position and gets the new value,
a fresh key is appended. -/
def upsert (fields : List (String × Json)) (k : String) (v : Json) :
    List (String × Json) :=
  if fields.any (fun kv => kv.1 == k) then
    fields.map (fun kv => if kv.1 == k then (k, v) else kv)
  else fields ++ [(k, v)]

/-- Collapse duplicate keys the way `json.loads` builds its `dict`: later
occurrences overwrite earlier values, first occurrence fixes the position. -/
def dedupFields (l : List (String × Json)) : List (String × Json) :=
  l.foldl (fun acc kv => upsert acc kv.1 kv.2) []

mutual

/-- Parse one JSON value (leading whitespace allowed), returning it together
with the unconsumed remainder. -/
def parseValue : Nat → List Char → Option (Json × List Char)
  | 0, _ => none
  | fuel + 1, cs =>
    match dropWs cs with
    | [] => none
    | c :: cs1 =>
      if c == '"' then do
        let (body, rest) ← parseStringBody (cs1.length + 1) cs1
        pure (Json.str (String.mk body), rest)
      else if c == '-' then do
        let (n, rest) ← parseNumberTail true cs1
        pure (Json.num n, rest)
      else if c.isDigit then do
        let (n, rest) ← parseNumberTail false (c :: cs1)
        pure (Json.num n, rest)
      else if c == 't' then
        match cs1 with
        | 'r' :: 'u' :: 'e' :: rest => some (Json.bool true, rest)
        | _ => none
      else if c == 'f' then
        match cs1 with
        | 'a' :: 'l' :: 's' :: 'e' :: rest => some (Json.bool false, rest)
        | _ => none
      else if c == 'n' then
        match cs1 with
        | 'u' :: 'l' :: 'l' :: rest => some (Json.null, rest)
        | _ => none
      else if c == '[' then
        match dropWs cs1 with
        | ']' :: rest => some (Json.arr [], rest)
        | cs2 => do
          let (elems, rest) ← parseArrayItems fuel cs2
          pure (Json.arr elems, rest)
      else if c == lbrace then
        match dropWs cs1 with
        | r :: rest =>
          if r == rbrace then some (Json.obj [], rest)
          else do
            let (fields, rest2) ← parseObjItems fuel (r :: rest)
            pure (Json.obj (dedupFields fields), rest2)
        | [] => none
      else none

/-- Parse the comma-separated items of a (non-empty) JSON array up to and
including the closing bracket. -/
def parseArrayItems : Nat → List Char → Option (List Json × List Char)
  | 0, _ => none
  | fuel + 1, cs => do
    let (v, rest) ← parseValue fuel cs
    match dropWs rest with
    | ',' :: rest2 => do
      let (vs, rest3) ← parseArrayItems fuel rest2
      pure (v :: vs, rest3)
    | ']' :: rest2 => pure ([v], rest2)
    | _ => none

/-- Parse the comma-separated members of a (non-empty) JSON object up to and
including the closing brace, in textual order. -/
def parseObjItems : Nat → List Char → Option (List (String × Json) × List Char)
  | 0, _ => none
  | fuel + 1, cs =>
    match dropWs cs with
    | '"' :: cs1 => do
      let (key, rest) ← parseStringBody (cs1.length + 1) cs1
      match dropWs rest with
      | ':' :: rest2 => do
        let (v, rest3) ← parseValue fuel rest2
        match dropWs rest3 with
        | ',' :: rest4 => do
          let (fields, rest5) ← parseObjItems fuel rest4
          pure ((String.mk key, v) :: fields, rest5)
        | r :: rest4 =>
          if r == rbrace then pure ([(String.mk key, v)], rest4) else none
        | [] => none
      | _ => none
    | _ => none

end

/-- Model of Python `json.loads`: parse the whole string as a single JSON
value; trailing non-whitespace makes the parse fail (a `JSONDecodeError`,
modelled as `none`). -/
def json_loads (s : String) : Option Json :=
  match parseValue (2 * s.length + 2) s.data with
  | some (j, rest) => if (dropWs rest).isEmpty then some j else none
  | none => none

/-- Python exceptions that the embedded handlers can raise: FastAPI
`HTTPException`s (status code and detail), the PyJWT error classes, the
builtin coercion/attribute errors, pydantic validation failure, and a
failure of the external AI call itself. -/
inductive PyErr where
  | http (status : Nat) (detail : String)
  | jwtExpired
  | jwtInvalid
  | valueError (msg : String)
  | typeError (msg : String)
  | attributeError (msg : String)
  | validationError (field : String)
  | external (msg : String)
deriving DecidableEq

/-- Whitespace removed by Python `str.strip()` (the ASCII cases: space and
the code points 9 through 13). -/
def pyWsChar (c : Char) : Bool :=
  c.toNat == 32 || (c.toNat ≥ 9 && c.toNat ≤ 13)

/-- Model of Python `str.strip()`: drop leading and trailing whitespace. -/
def pyStrip (s : String) : String :=
  String.mk ((((s.data.dropWhile pyWsChar).reverse.dropWhile pyWsChar).reverse))

/-- Model of Python `str.startswith(pre)`. -/
def pyStartsWith (s pre : String) : Bool :=
  pre.data.isPrefixOf s.data

/-- Model of Python `str.endswith(suf)`. -/
def pyEndsWith (s suf : String) : Bool :=
  suf.data.reverse.isPrefixOf s.data.reverse

/-- Model of the Python slice `s[n:]`. -/
def pySliceFrom (s : String) (n : Nat) : String :=
  String.mk (s.data.drop n)

/-- Model of the Python slice `s[:-n]` (for nonempty `s`). -/
def pySliceUpToNeg (s : String) (n : Nat) : String :=
  String.mk (s.data.take (s.data.length - n))

/-- Model of the Python slice `s[:n]`. -/
def pySliceTo (s : String) (n : Nat) : String :=
  String.mk (s.data.take n)

/-- Python truthiness of a JSON-decoded value, as tested by
`if result.get('confidence_score'):`. -/
def pyTruthy : Json → Bool
  | .null => false
  | .bool b => b
  | .num n => n != 0
  | .str s => !s.isEmpty
  | .arr xs => !xs.isEmpty
  | .obj fs => !fs.isEmpty

/-- Python `int(...)` applied to a JSON-decoded value: identity on ints,
`True`/`False` become 1/0, a string of optional sign and digits (surrounding
whitespace allowed) is read in base 10 (`ValueError` otherwise), and any
other type is a `TypeError`. -/
def pyToInt : Json → Except PyErr Int
  | .num n => .ok n
  | .bool b => .ok (if b then 1 else 0)
  | .str s =>
    let cs := (pyStrip s).data
    let (neg, ds) := match cs with
      | '-' :: tl => (true, tl)
      | '+' :: tl => (false, tl)
      | _ => (false, cs)
    if ds.isEmpty || !ds.all Char.isDigit then
      .error (.valueError "invalid literal for int() with base 10")
    else
      let n : Int := Int.ofNat (digitsToNat ds 0)
      .ok (if neg then -n else n)
  | _ => .error (.typeError "int() argument must not be this type")

/-- Python `dict.get(key)` on a decoded JSON object: the value stored at
`key`, if any. -/
def objGet (fields : List (String × Json)) (key : String) : Option Json :=
  (fields.find? (fun kv => kv.1 == key)).map (fun kv => kv.2)

/-- Code-fence stripping performed by `analyze_crop_with_ai` (server.py
lines 217-222): strip whitespace, drop a leading "```json" marker (7
characters) and a trailing three-backtick "```" marker, then strip again. -/
def stripFences (response : String) : String :=
  let t := pyStrip response
  let t := if pyStartsWith t "```json" then pySliceFrom t 7 else t
  let t := if pyEndsWith t "```" then pySliceUpToNeg t 3 else t
  pyStrip t

/-- Confidence-score coercion of `analyze_crop_with_ai` (lines 226-227):
when `result.get('confidence_score')` is truthy, replace it by
`int(result['confidence_score'])`; the `int(...)` call can itself raise. -/
def coerce_confidence (fields : List (String × Json)) :
    Except PyErr (List (String × Json)) :=
  match objGet fields "confidence_score" with
  | some v =>
    if pyTruthy v then
      match pyToInt v with
      | .ok n => .ok (upsert fields "confidence_score" (Json.num n))
      | .error e => .error e
    else .ok fields
  | none => .ok fields

/-- Post-processing of the AI collaborator's response text in
`analyze_crop_with_ai` (lines 216-238).  The stripped text is parsed as
JSON; a `JSONDecodeError` is caught and replaced by the degraded fallback
record (whose `sustainable_treatment` is the first 200 characters of the
raw, unstripped response); when the parse yields a non-object,
`result.get` raises `AttributeError`, which the `except` clause does not
catch; when it yields an object, the confidence score is coerced. -/
def analyze_crop_with_ai (response : String) :
    Except PyErr (List (String × Json)) :=
  match json_loads (stripFences response) with
  | some (Json.obj fields) => coerce_confidence fields
  | some _ => .error (.attributeError "object has no attribute get")
  | none =>
    .ok [("diagnosis", Json.str "Analysis completed"),
         ("confidence_score", Json.num 75),
         ("immediate_action", Json.str "Monitor crop closely"),
         ("sustainable_treatment", Json.str (pySliceTo response 200)),
         ("resource_efficiency_tip",
          Json.str "Implement drip irrigation to conserve water"),
         ("risk_level", Json.str "Medium")]

/-- User document of the `users` collection (pydantic model `User`,
server.py lines 37-43). -/
structure User where
  id : String
  email : String
  name : String
  password_hash : String
  created_at : Nat
deriving DecidableEq

/-- Crop-analysis document of the `analyses` collection (pydantic model
`CropAnalysis`, lines 58-75).  The optional float `temperature` is carried
as a rational: it is pure pass-through data. -/
structure CropAnalysis where
  id : String
  user_id : String
  crop_name : String
  growth_stage : String
  symptoms : String
  soil_moisture : Option Int
  temperature : Option Rat
  humidity : Option Int
  image_data : Option String
  diagnosis : String
  confidence_score : Int
  immediate_action : String
  sustainable_treatment : String
  resource_efficiency_tip : String
  risk_level : String
  created_at : Nat
deriving DecidableEq

/-- Structured observation fields of an analysis request (pydantic model
`CropAnalysisRequest`, lines 77-83). -/
structure CropAnalysisRequest where
  crop_name : String
  growth_stage : String
  symptoms : String
  soil_moisture : Option Int
  temperature : Option Rat
  humidity : Option Int
deriving DecidableEq

/-- Payload shape returned to the client for one analysis (pydantic model
`CropAnalysisResponse`, lines 85-95). -/
structure CropAnalysisResponse where
  id : String
  crop_name : String
  growth_stage : String
  diagnosis : String
  confidence_score : Int
  immediate_action : String
  sustainable_treatment : String
  resource_efficiency_tip : String
  risk_level : String
  created_at : Nat
deriving DecidableEq

/-- The document store: the `users` and `analyses` Mongo collections as
lists in insertion order. -/
structure DB where
  users : List User
  analyses : List CropAnalysis
deriving DecidableEq

/-- Public user fields returned by the auth endpoints. -/
structure UserPublic where
  id : String
  email : String
  name : String
deriving DecidableEq

/-- Token lifetime constant (line 31): `24 * 7` hours. -/
def JWT_EXPIRATION_HOURS : Nat := 24 * 7

/-- Claims encoded into a JWT by `create_token` (lines 104-108). -/
structure JwtPayload where
  user_id : String
  email : String
  exp : Nat
deriving DecidableEq

/-- A JWT as a payload plus its HS256 signature.  The HMAC is modelled by
`signPayload`: a string determined by the signing secret and the payload,
so that verification succeeds exactly when the same secret signed the same
payload. -/
structure Token where
  payload : JwtPayload
  sig : String
deriving DecidableEq

/-- Model of the HS256 signature over a payload. -/
def signPayload (secret : String) (p : JwtPayload) : String :=
  secret ++ ":" ++ p.user_id ++ ":" ++ p.email ++ ":" ++ toString p.exp

/-- `create_token` (lines 103-109): encode user id and email with an `exp`
claim a fixed duration from now. -/
def create_token (secret : String) (now : Nat) (user_id email : String) :
    Token :=
  let p : JwtPayload := ⟨user_id, email, now + JWT_EXPIRATION_HOURS * 3600⟩
  ⟨p, signPayload secret p⟩

/-- Model of `jwt.decode` (PyJWT): verify the signature, then the `exp`
claim; a bad signature is `InvalidTokenError`, an elapsed expiry is
`ExpiredSignatureError`. -/
def jwt_decode (secret : String) (now : Nat) (t : Token) :
    Except PyErr JwtPayload :=
  if t.sig ≠ signPayload secret t.payload then .error .jwtInvalid
  else if t.payload.exp ≤ now then .error .jwtExpired
  else .ok t.payload

/-- `get_current_user` (lines 111-126): decode the bearer token, translate
the PyJWT errors into 401 responses with distinct details, then resolve the
encoded user id in the `users` collection. -/
def get_current_user (db : DB) (secret : String) (now : Nat) (t : Token) :
    Except PyErr User :=
  match jwt_decode secret now t with
  | .error .jwtExpired => .error (.http 401 "Token expired")
  | .error .jwtInvalid => .error (.http 401 "Invalid token")
  | .error e => .error e
  | .ok payload =>
    if payload.user_id = "" then .error (.http 401 "Invalid token")
    else
      match db.users.find? (fun u => u.id == payload.user_id) with
      | none => .error (.http 401 "User not found")
      | some u => .ok u

/-- Response of the register/login endpoints. -/
structure TokenResponse where
  token : Token
  user : UserPublic
deriving DecidableEq

/-- `register` (lines 128-148): reject an already-registered email with a
400, otherwise insert a user whose `password_hash` is `bcrypt.hashpw` of the
password (the opaque `hashpw` parameter) and return a fresh token.  `newId`
models the generated uuid, `now` the creation timestamp. -/
def register (db : DB) (hashpw : String → String) (secret : String)
    (newId : String) (now : Nat) (email name password : String) :
    Except PyErr (DB × TokenResponse) :=
  if db.users.any (fun u => u.email == email) then
    .error (.http 400 "Email already registered")
  else
    let user : User := ⟨newId, email, name, hashpw password, now⟩
    let db' : DB := { db with users := db.users ++ [user] }
    .ok (db', ⟨create_token secret now user.id user.email,
               ⟨user.id, user.email, user.name⟩⟩)

/-- `login` (lines 150-160): look the email up, check the password with
`bcrypt.checkpw` (the opaque `checkpw` parameter), and fail with one and the
same 401 whether the user is missing or the password mismatches. -/
def login (db : DB) (checkpw : String → String → Bool) (secret : String)
    (now : Nat) (email password : String) : Except PyErr TokenResponse :=
  match db.users.find? (fun u => u.email == email) with
  | none => .error (.http 401 "Invalid email or password")
  | some u =>
    if !checkpw password u.password_hash then
      .error (.http 401 "Invalid email or password")
    else
      .ok ⟨create_token secret now u.id u.email, ⟨u.id, u.email, u.name⟩⟩

/-- Read a string field of the AI result as `CropAnalysis` construction does
(`ai_result.get(key, default)` fed to a pydantic `str` field): absent keys
fall back to the default, a non-string value fails validation. -/
def getStrField (fields : List (String × Json)) (key dflt : String) :
    Except PyErr String :=
  match objGet fields key with
  | none => .ok dflt
  | some (Json.str s) => .ok s
  | some _ => .error (.validationError key)

/-- Read the integer field of the AI result as `CropAnalysis` construction
does (`ai_result.get(key, default)` fed to a pydantic `int` field): absent
keys fall back to the default, a non-integer value fails validation.  On
the request path a numeric-string confidence has already been coerced by
`coerce_confidence`, so only genuinely non-integer values reach the
failure arm. -/
def getIntField (fields : List (String × Json)) (key : String) (dflt : Int) :
    Except PyErr Int :=
  match objGet fields key with
  | none => .ok dflt
  | some (Json.num n) => .ok n
  | some _ => .error (.validationError key)

/-- Client-visible projection of a stored analysis (the
`CropAnalysisResponse(...)` constructions of lines 292-303 and 316-330). -/
def responseOf (a : CropAnalysis) : CropAnalysisResponse :=
  ⟨a.id, a.crop_name, a.growth_stage, a.diagnosis, a.confidence_score,
   a.immediate_action, a.sustainable_treatment, a.resource_efficiency_tip,
   a.risk_level, a.created_at⟩

/-- Construction of the combined `CropAnalysis` record (the
`CropAnalysis(...)` call of lines 271-286): observation fields are copied
from the request, AI fields are read with `ai_result.get(key, default)` and
validated by pydantic. -/
def buildAnalysisRecord (newId : String) (user : User) (now : Nat)
    (req : CropAnalysisRequest) (image_base64 : Option String)
    (ai_result : List (String × Json)) : Except PyErr CropAnalysis := do
  let diagnosis ← getStrField ai_result "diagnosis" "Unknown"
  let confidence ← getIntField ai_result "confidence_score" 0
  let immediate ← getStrField ai_result "immediate_action" ""
  let sustainable ← getStrField ai_result "sustainable_treatment" ""
  let tip ← getStrField ai_result "resource_efficiency_tip" ""
  let risk ← getStrField ai_result "risk_level" "Medium"
  pure ⟨newId, user.id, req.crop_name, req.growth_stage, req.symptoms,
        req.soil_moisture, req.temperature, req.humidity, image_base64,
        diagnosis, confidence, immediate, sustainable, tip, risk, now⟩

/-- `create_analysis` (lines 240-303) after authentication and image
downscaling: the outcome of the awaited `analyze_crop_with_ai` call is the
`ai` argument (an exception there propagates before anything is stored —
the store argument is simply never extended), the combined record is built
with per-field defaults for missing AI keys, appended to the `analyses`
collection by the single `insert_one`, and echoed back. -/
def create_analysis (db : DB) (user : User) (newId : String) (now : Nat)
    (req : CropAnalysisRequest) (image_base64 : Option String)
    (ai : Except PyErr (List (String × Json))) :
    Except PyErr (DB × CropAnalysisResponse) := do
  let ai_result ← ai
  let analysis ← buildAnalysisRecord newId user now req image_base64 ai_result
  let db' : DB := { db with analyses := db.analyses ++ [analysis] }
  pure (db', responseOf analysis)

/-- Newest-first order used by the history query (`.sort('created_at', -1)`). -/
def createdDesc (a b : CropAnalysis) : Prop :=
  b.created_at ≤ a.created_at

instance : DecidableRel createdDesc := fun _ _ => Nat.decLe _ _

instance : IsTotal CropAnalysis createdDesc :=
  ⟨fun a b => Nat.le_total b.created_at a.created_at⟩

instance : IsTrans CropAnalysis createdDesc :=
  ⟨fun _ _ _ hab hbc => le_trans hbc hab⟩

/-- `get_analysis_history` (lines 305-330): the requester's analyses,
sorted by creation time descending, truncated to 100 (`to_list(100)`), and
projected to the response shape. -/
def get_analysis_history (db : DB) (user : User) :
    List CropAnalysisResponse :=
  ((List.insertionSort createdDesc
      (db.analyses.filter (fun a => a.user_id == user.id))).take 100).map
    responseOf

/-- `get_analysis_detail` (lines 332-348): a single lookup filtered on both
the analysis id and the requester's user id; any miss is the same 404. -/
def get_analysis_detail (db : DB) (user : User) (analysis_id : String) :
    Except PyErr CropAnalysis :=
  match db.analyses.find?
      (fun a => a.id == analysis_id && a.user_id == user.id) with
  | none => .error (.http 404 "Analysis not found")
  | some a => .ok a

section Fixtures

/-- Example registered user, for the witness theorems. -/
def userAlice : User := ⟨"uid-alice", "alice@example.com", "Alice", "hash-a", 10⟩

/-- A second registered user, distinct from `userAlice`. -/
def userBob : User := ⟨"uid-bob", "bob@example.com", "Bob", "hash-b", 11⟩

/-- An analysis owned by `userAlice`. -/
def analysisA1 : CropAnalysis :=
  ⟨"an-1", "uid-alice", "tomato", "flowering", "brown spots", some 45,
   some (51 / 2 : Rat), some 70, none, "Early Blight", 85,
   "Prune affected leaves", "Neem oil spray", "Drip irrigation", "Medium", 20⟩

/-- A newer analysis owned by `userAlice`. -/
def analysisA2 : CropAnalysis :=
  ⟨"an-2", "uid-alice", "maize", "seedling", "wilting", none, none, none,
   none, "Water Stress", 70, "Irrigate", "Mulching", "Water at dawn", "Low", 25⟩

/-- An analysis owned by `userBob`. -/
def analysisB1 : CropAnalysis :=
  ⟨"an-3", "uid-bob", "rice", "tillering", "yellow leaves", none, none, none,
   none, "Nitrogen deficiency", 60, "Apply compost", "Green manure",
   "Azolla cover", "High", 22⟩

/-- Example store holding both users and their analyses. -/
def dbEx : DB := ⟨[userAlice, userBob], [analysisA1, analysisA2, analysisB1]⟩

/-- Example observation payload. -/
def reqEx : CropAnalysisRequest :=
  ⟨"tomato", "flowering", "brown spots", some 45, some (51 / 2 : Rat), some 70⟩

/-- Example stand-in for `bcrypt.hashpw` with a fixed salt. -/
def hashEx : String → String := fun pw => "$2b$12$examplesalt" ++ pw

end Fixtures

section Helpers

/-- Reduction of `Except` bind on a success value. -/
theorem exceptBindOk {α β : Type} (x : α) (f : α → Except PyErr β) :
    (Bind.bind (Except.ok x) f : Except PyErr β) = f x := rfl

/-- Reduction of `Except` bind on an error value. -/
theorem exceptBindErr {α β : Type} (e : PyErr) (f : α → Except PyErr β) :
    (Bind.bind (Except.error e) f : Except PyErr β) = Except.error e := rfl

/-- Reduction of `Except` pure. -/
theorem exceptPure {β : Type} (x : β) :
    (Pure.pure x : Except PyErr β) = Except.ok x := rfl

/-- An absent key makes `getStrField` return its default. -/
theorem getStrField_of_none {fs : List (String × Json)} {k : String}
    (d : String) (h : objGet fs k = none) : getStrField fs k d = .ok d := by
  unfold getStrField
  rw [h]

/-- An absent key makes `getIntField` return its default. -/
theorem getIntField_of_none {fs : List (String × Json)} {k : String}
    (d : Int) (h : objGet fs k = none) : getIntField fs k d = .ok d := by
  unfold getIntField
  rw [h]

/-- Replacing the value at a present key is visible to `find?`. -/
theorem find?_map_set (fs : List (String × Json)) (k : String) (v : Json)
    (h : fs.any (fun kv => kv.1 == k) = true) :
    List.find? (fun kv => kv.1 == k)
      (fs.map (fun kv => if kv.1 == k then (k, v) else kv)) = some (k, v) := by
  induction fs with
  | nil => simp at h
  | cons kv tl ih =>
    by_cases hk : (kv.1 == k) = true
    · simp only [List.map_cons, if_pos hk]
      exact List.find?_cons_of_pos _ (by simp)
    · simp only [List.map_cons, if_neg hk]
      rw [List.find?_cons_of_neg _ (by simpa using hk)]
      apply ih
      simp only [List.any_cons, Bool.or_eq_true] at h
      exact h.resolve_left hk

/-- `objGet` after `upsert` at the same key sees the new value. -/
theorem objGet_upsert (fs : List (String × Json)) (k : String) (v : Json) :
    objGet (upsert fs k v) k = some v := by
  unfold upsert objGet
  by_cases h : fs.any (fun kv => kv.1 == k) = true
  · rw [if_pos h, find?_map_set fs k v h]
    rfl
  · rw [if_neg h, List.find?_append]
    have hnone : List.find? (fun kv => kv.1 == k) fs = none := by
      rw [List.find?_eq_none]
      intro x hx hpx
      exact h (List.any_eq_true.mpr ⟨x, hx, hpx⟩)
    rw [hnone]
    simp [List.find?]

/-- Everything `buildAnalysisRecord` guarantees about a successfully built
record: bookkeeping fields and the origin of each AI-derived field. -/
theorem buildAnalysisRecord_ok {newId : String} {user : User} {now : Nat}
    {req : CropAnalysisRequest} {img : Option String}
    {fs : List (String × Json)} {a : CropAnalysis}
    (h : buildAnalysisRecord newId user now req img fs = .ok a) :
    a.id = newId ∧ a.user_id = user.id ∧ a.created_at = now ∧
    getStrField fs "diagnosis" "Unknown" = .ok a.diagnosis ∧
    getIntField fs "confidence_score" 0 = .ok a.confidence_score ∧
    getStrField fs "immediate_action" "" = .ok a.immediate_action ∧
    getStrField fs "sustainable_treatment" "" = .ok a.sustainable_treatment ∧
    getStrField fs "resource_efficiency_tip" "" = .ok a.resource_efficiency_tip ∧
    getStrField fs "risk_level" "Medium" = .ok a.risk_level := by
  unfold buildAnalysisRecord at h
  cases hd : getStrField fs "diagnosis" "Unknown" with
  | error e => rw [hd, exceptBindErr] at h; exact Except.noConfusion h
  | ok d =>
  rw [hd, exceptBindOk] at h
  cases hc : getIntField fs "confidence_score" 0 with
  | error e => rw [hc, exceptBindErr] at h; exact Except.noConfusion h
  | ok c =>
  rw [hc, exceptBindOk] at h
  cases hi : getStrField fs "immediate_action" "" with
  | error e => rw [hi, exceptBindErr] at h; exact Except.noConfusion h
  | ok i =>
  rw [hi, exceptBindOk] at h
  cases hs : getStrField fs "sustainable_treatment" "" with
  | error e => rw [hs, exceptBindErr] at h; exact Except.noConfusion h
  | ok s =>
  rw [hs, exceptBindOk] at h
  cases ht : getStrField fs "resource_efficiency_tip" "" with
  | error e => rw [ht, exceptBindErr] at h; exact Except.noConfusion h
  | ok t =>
  rw [ht, exceptBindOk] at h
  cases hr : getStrField fs "risk_level" "Medium" with
  | error e => rw [hr, exceptBindErr] at h; exact Except.noConfusion h
  | ok r =>
  rw [hr, exceptBindOk, exceptPure] at h
  cases h
  exact ⟨rfl, rfl, rfl, rfl, rfl, rfl, rfl, rfl, rfl⟩

/-- Evaluation of `buildAnalysisRecord` from the six field reads. -/
theorem buildAnalysisRecord_eval {fs : List (String × Json)}
    {d i s t r : String} {c : Int} (newId : String) (user : User) (now : Nat)
    (req : CropAnalysisRequest) (img : Option String)
    (hd : getStrField fs "diagnosis" "Unknown" = .ok d)
    (hc : getIntField fs "confidence_score" 0 = .ok c)
    (hi : getStrField fs "immediate_action" "" = .ok i)
    (hs : getStrField fs "sustainable_treatment" "" = .ok s)
    (ht : getStrField fs "resource_efficiency_tip" "" = .ok t)
    (hr : getStrField fs "risk_level" "Medium" = .ok r) :
    buildAnalysisRecord newId user now req img fs =
      .ok ⟨newId, user.id, req.crop_name, req.growth_stage, req.symptoms,
           req.soil_moisture, req.temperature, req.humidity, img,
           d, c, i, s, t, r, now⟩ := by
  unfold buildAnalysisRecord
  simp only [hd, hc, hi, hs, ht, hr, exceptBindOk, exceptPure]

/-- Inversion of a successful `create_analysis` run: the AI step succeeded,
the record build succeeded, and the new store is the old one with exactly
that record appended. -/
theorem create_analysis_ok_inv {db : DB} {user : User} {newId : String}
    {now : Nat} {req : CropAnalysisRequest} {img : Option String}
    {ai : Except PyErr (List (String × Json))} {db' : DB}
    {resp : CropAnalysisResponse}
    (h : create_analysis db user newId now req img ai = .ok (db', resp)) :
    ∃ fs rec, ai = .ok fs ∧
      buildAnalysisRecord newId user now req img fs = .ok rec ∧
      db' = { db with analyses := db.analyses ++ [rec] } ∧
      resp = responseOf rec := by
  unfold create_analysis at h
  cases hai : ai with
  | error e => rw [hai, exceptBindErr] at h; exact Except.noConfusion h
  | ok fs =>
  rw [hai, exceptBindOk] at h
  cases hb : buildAnalysisRecord newId user now req img fs with
  | error e => rw [hb, exceptBindErr] at h; exact Except.noConfusion h
  | ok rec =>
  rw [hb, exceptBindOk, exceptPure] at h
  cases h
  exact ⟨fs, rec, rfl, hb, rfl, rfl⟩

end Helpers


/-- C1: for every raw AI response text on which JSON parsing fails,
`analyze_crop_with_ai` returns — without propagating any parse error —
exactly the degraded fallback record: diagnosis "Analysis completed",
confidence 75, immediate action "Monitor crop closely", sustainable
treatment the first 200 characters of the raw response, the generic
drip-irrigation tip, and risk level "Medium". -/
theorem analyze_fallback_on_unparseable (response : String)
    (h : json_loads (stripFences response) = none) :
    analyze_crop_with_ai response =
      .ok [("diagnosis", Json.str "Analysis completed"),
           ("confidence_score", Json.num 75),
           ("immediate_action", Json.str "Monitor crop closely"),
           ("sustainable_treatment", Json.str (pySliceTo response 200)),
           ("resource_efficiency_tip",
            Json.str "Implement drip irrigation to conserve water"),
           ("risk_level", Json.str "Medium")] := by
  unfold analyze_crop_with_ai
  rw [h]

/-- C1 witness: a concrete free-text response is unparseable and produces
exactly the fallback record. -/
theorem analyze_fallback_on_unparseable_witness :
    json_loads (stripFences "The leaves look yellow; consult an agronomist.")
      = none ∧
    analyze_crop_with_ai "The leaves look yellow; consult an agronomist." =
      .ok [("diagnosis", Json.str "Analysis completed"),
           ("confidence_score", Json.num 75),
           ("immediate_action", Json.str "Monitor crop closely"),
           ("sustainable_treatment",
            Json.str (pySliceTo "The leaves look yellow; consult an agronomist." 200)),
           ("resource_efficiency_tip",
            Json.str "Implement drip irrigation to conserve water"),
           ("risk_level", Json.str "Medium")] :=
  ⟨rfl, analyze_fallback_on_unparseable _ rfl⟩

/-- C2 counterexample: it is not true that every response whose stripped
text parses as JSON makes `analyze_crop_with_ai` return successfully — the
object `\x7b"confidence_score": "high"\x7d` parses, but the `int(...)`
coercion raises an uncaught `ValueError`, so neither the parsed object nor
the fallback is returned. -/
theorem analyze_parsed_not_always_returned :
    ¬ (∀ (response : String) (j : Json),
        json_loads (stripFences response) = some j →
        ∃ out, analyze_crop_with_ai response = Except.ok out) := by
  intro hclaim
  obtain ⟨out, hout⟩ :=
    hclaim "\x7b\"confidence_score\": \"high\"\x7d"
      (Json.obj [("confidence_score", Json.str "high")]) rfl
  rw [show analyze_crop_with_ai "\x7b\"confidence_score\": \"high\"\x7d"
        = Except.error (.valueError "invalid literal for int() with base 10")
      from rfl] at hout
  exact Except.noConfusion hout

/-- C2 (amended): for every response whose stripped text parses as a JSON
object on which the confidence-score coercion succeeds,
`analyze_crop_with_ai` returns that parsed object with the coercion
applied — never the fallback, never an error. -/
theorem analyze_returns_parsed_object (response : String)
    (fields out : List (String × Json))
    (hp : json_loads (stripFences response) = some (Json.obj fields))
    (hc : coerce_confidence fields = .ok out) :
    analyze_crop_with_ai response = .ok out := by
  unfold analyze_crop_with_ai
  rw [hp]
  exact hc

/-- C2 witness: a code-fenced JSON object is stripped, parsed, and returned
with its string confidence score coerced to the integer 85. -/
theorem analyze_returns_parsed_object_witness :
    json_loads (stripFences
        "```json\n\x7b\"diagnosis\": \"Early Blight\", \"confidence_score\": \"85\"\x7d\n```")
      = some (Json.obj [("diagnosis", Json.str "Early Blight"),
                        ("confidence_score", Json.str "85")]) ∧
    coerce_confidence [("diagnosis", Json.str "Early Blight"),
                       ("confidence_score", Json.str "85")]
      = .ok [("diagnosis", Json.str "Early Blight"),
             ("confidence_score", Json.num 85)] ∧
    analyze_crop_with_ai
        "```json\n\x7b\"diagnosis\": \"Early Blight\", \"confidence_score\": \"85\"\x7d\n```"
      = .ok [("diagnosis", Json.str "Early Blight"),
             ("confidence_score", Json.num 85)] :=
  ⟨rfl, rfl, analyze_returns_parsed_object _ _ _ rfl rfl⟩

/-- C3: an error outcome of the awaited AI call propagates from
`create_analysis` unmasked, and on that path the store argument is never
extended; a success outcome appends exactly one combined record (the single
`insert_one`), so either the full record is saved or nothing is. -/
theorem create_analysis_all_or_nothing (db : DB) (user : User)
    (newId : String) (now : Nat) (req : CropAnalysisRequest)
    (img : Option String) (ai : Except PyErr (List (String × Json))) :
    (∀ e, ai = .error e →
       create_analysis db user newId now req img ai = .error e) ∧
    (∀ db' resp,
       create_analysis db user newId now req img ai = .ok (db', resp) →
       db'.users = db.users ∧
       ∃ rec, db'.analyses = db.analyses ++ [rec] ∧
         rec.id = newId ∧ rec.user_id = user.id ∧ resp = responseOf rec) := by
  constructor
  · rintro e rfl
    rfl
  · intro db' resp h
    obtain ⟨fs, rec, -, hb, hdb, hresp⟩ := create_analysis_ok_inv h
    obtain ⟨hid, huid, -, -, -, -, -, -, -⟩ := buildAnalysisRecord_ok hb
    subst hdb
    exact ⟨rfl, rec, rfl, hid, huid, hresp⟩

/-- C3 witness: a concrete failing AI call propagates its error unchanged
through `create_analysis`. -/
theorem create_analysis_all_or_nothing_witness :
    create_analysis dbEx userAlice "an-9" 30 reqEx none
        (.error (.external "AI call failed"))
      = .error (.external "AI call failed") :=
  (create_analysis_all_or_nothing dbEx userAlice "an-9" 30 reqEx none
    (.error (.external "AI call failed"))).1 _ rfl

/-- C4: `get_analysis_detail` succeeds only on a stored record with the
requested id owned by the requesting user; whenever no such owned record
exists — be the id foreign-owned or wholly unknown — it fails with one and
the same 404 "Analysis not found". -/
theorem get_analysis_detail_user_scoped (db : DB) (u : User) (x : String) :
    (∀ a, get_analysis_detail db u x = .ok a →
       a ∈ db.analyses ∧ a.id = x ∧ a.user_id = u.id) ∧
    ((∀ a ∈ db.analyses, ¬(a.id = x ∧ a.user_id = u.id)) →
       get_analysis_detail db u x = .error (.http 404 "Analysis not found")) := by
  constructor
  · intro a ha
    unfold get_analysis_detail at ha
    cases hf : db.analyses.find? (fun b => b.id == x && b.user_id == u.id) with
    | none => rw [hf] at ha; exact Except.noConfusion ha
    | some b =>
      rw [hf] at ha
      cases ha
      have hp := List.find?_some hf
      simp only [Bool.and_eq_true, beq_iff_eq] at hp
      exact ⟨List.mem_of_find?_eq_some hf, hp.1, hp.2⟩
  · intro hnone
    unfold get_analysis_detail
    have hf : db.analyses.find? (fun b => b.id == x && b.user_id == u.id)
        = none := by
      rw [List.find?_eq_none]
      intro b hb hpb
      simp only [Bool.and_eq_true, beq_iff_eq] at hpb
      exact hnone b hb hpb
    rw [hf]

/-- C4 witness: for Bob, Alice's record `an-1` and the nonexistent record
`an-404` produce the identical 404 failure. -/
theorem get_analysis_detail_user_scoped_witness :
    get_analysis_detail dbEx userBob "an-1"
        = .error (.http 404 "Analysis not found") ∧
    get_analysis_detail dbEx userBob "an-404"
        = .error (.http 404 "Analysis not found") :=
  ⟨(get_analysis_detail_user_scoped dbEx userBob "an-1").2 (by decide),
   (get_analysis_detail_user_scoped dbEx userBob "an-404").2 (by decide)⟩

/-- C5: a login attempt with an unknown email and one with a known email
but mismatching password produce the very same 401 error — observably
identical, leaking nothing about whether the email is registered. -/
theorem login_uniform_failure (db1 db2 : DB)
    (chk1 chk2 : String → String → Bool) (sec1 sec2 : String)
    (now1 now2 : Nat) (email1 pw1 email2 pw2 : String)
    (h1 : db1.users.find? (fun u => u.email == email1) = none)
    (u : User) (h2 : db2.users.find? (fun u => u.email == email2) = some u)
    (h3 : chk2 pw2 u.password_hash = false) :
    login db1 chk1 sec1 now1 email1 pw1
        = .error (.http 401 "Invalid email or password") ∧
    login db2 chk2 sec2 now2 email2 pw2
        = .error (.http 401 "Invalid email or password") ∧
    login db1 chk1 sec1 now1 email1 pw1
        = login db2 chk2 sec2 now2 email2 pw2 := by
  have e1 : login db1 chk1 sec1 now1 email1 pw1
      = .error (.http 401 "Invalid email or password") := by
    unfold login
    rw [h1]
  have e2 : login db2 chk2 sec2 now2 email2 pw2
      = .error (.http 401 "Invalid email or password") := by
    unfold login
    rw [h2]
    simp [h3]
  exact ⟨e1, e2, e1.trans e2.symm⟩

/-- C5 witness: with the example store, an unknown email and Alice's email
with a rejected password fail with the same observable error. -/
theorem login_uniform_failure_witness :
    login dbEx (fun _ _ => false) "sec" 50 "carol@example.com" "pw"
        = .error (.http 401 "Invalid email or password") ∧
    login dbEx (fun _ _ => false) "sec" 50 "alice@example.com" "wrongpw"
        = .error (.http 401 "Invalid email or password") ∧
    login dbEx (fun _ _ => false) "sec" 50 "carol@example.com" "pw"
        = login dbEx (fun _ _ => false) "sec" 50 "alice@example.com" "wrongpw" :=
  login_uniform_failure dbEx dbEx (fun _ _ => false) (fun _ _ => false)
    "sec" "sec" 50 50 "carol@example.com" "pw" "alice@example.com" "wrongpw"
    rfl userAlice rfl rfl

/-- C6: a token minted by `create_token` for user A authenticates as A (and
never as any distinct user B) while unexpired, and once the expiry time has
passed authentication fails with the expired-credential 401, whose detail
differs from both the invalid-token and the unknown-user errors. -/
theorem token_authenticates_only_issuer (db : DB) (secret : String)
    (issuedAt now : Nat) (A B : User)
    (hfind : db.users.find? (fun u => u.id == A.id) = some A)
    (hId : A.id ≠ "") (hAB : A.id ≠ B.id) :
    (now < issuedAt + JWT_EXPIRATION_HOURS * 3600 →
       get_current_user db secret now
           (create_token secret issuedAt A.id A.email) = .ok A ∧
       get_current_user db secret now
           (create_token secret issuedAt A.id A.email) ≠ .ok B) ∧
    (issuedAt + JWT_EXPIRATION_HOURS * 3600 < now →
       get_current_user db secret now
           (create_token secret issuedAt A.id A.email)
         = .error (.http 401 "Token expired")) ∧
    (PyErr.http 401 "Token expired" ≠ PyErr.http 401 "Invalid token" ∧
     PyErr.http 401 "Token expired" ≠ PyErr.http 401 "User not found") := by
  refine ⟨?_, ?_, by decide, by decide⟩
  · intro hlt
    have hdec : jwt_decode secret now (create_token secret issuedAt A.id A.email)
        = .ok ⟨A.id, A.email, issuedAt + JWT_EXPIRATION_HOURS * 3600⟩ := by
      unfold jwt_decode create_token
      dsimp only
      rw [if_neg (not_not_intro rfl), if_neg (not_le.mpr hlt)]
    have hok : get_current_user db secret now
        (create_token secret issuedAt A.id A.email) = .ok A := by
      unfold get_current_user
      rw [hdec]
      dsimp only
      rw [if_neg hId, hfind]
    refine ⟨hok, ?_⟩
    intro hB
    rw [hok] at hB
    cases hB
    exact hAB rfl
  · intro hgt
    have hdec : jwt_decode secret now (create_token secret issuedAt A.id A.email)
        = .error .jwtExpired := by
      unfold jwt_decode create_token
      dsimp only
      rw [if_neg (not_not_intro rfl), if_pos (le_of_lt hgt)]
    unfold get_current_user
    rw [hdec]

/-- C6 witness: Alice's fresh token authenticates as Alice; after the
168-hour lifetime it fails with the expired-token 401. -/
theorem token_authenticates_only_issuer_witness :
    get_current_user dbEx "sec" 1
        (create_token "sec" 0 userAlice.id userAlice.email) = .ok userAlice ∧
    get_current_user dbEx "sec" 700000
        (create_token "sec" 0 userAlice.id userAlice.email)
      = .error (.http 401 "Token expired") :=
  ⟨((token_authenticates_only_issuer dbEx "sec" 0 1 userAlice userBob rfl
      (by decide) (by decide)).1 (by decide)).1,
   (token_authenticates_only_issuer dbEx "sec" 0 700000 userAlice userBob rfl
      (by decide) (by decide)).2.1 (by decide)⟩

/-- C7: registering an email already present in the user store fails with
the 400 duplicate-email error and leaves the store as it was; registering a
fresh email appends exactly one user whose stored `password_hash` is the
bcrypt hash — never the plaintext — and preserves email uniqueness of the
store. -/
theorem register_no_duplicate_email (db : DB) (hashpw : String → String)
    (secret newId : String) (now : Nat) (email name password : String) :
    ((∃ u ∈ db.users, u.email = email) →
       register db hashpw secret newId now email name password
         = .error (.http 400 "Email already registered")) ∧
    ((¬ ∃ u ∈ db.users, u.email = email) →
       (∃ tr, register db hashpw secret newId now email name password
           = .ok ({ users := db.users ++
                      [⟨newId, email, name, hashpw password, now⟩],
                    analyses := db.analyses }, tr)) ∧
       (hashpw password ≠ password →
         (⟨newId, email, name, hashpw password, now⟩ : User).password_hash
           ≠ password) ∧
       ((db.users.map User.email).Nodup →
         ((db.users ++ [(⟨newId, email, name, hashpw password, now⟩ : User)]).map
             User.email).Nodup)) := by
  constructor
  · rintro ⟨u, hu, he⟩
    have hany : db.users.any (fun u => u.email == email) = true :=
      List.any_eq_true.mpr ⟨u, hu, by simpa using he⟩
    unfold register
    rw [if_pos hany]
  · intro hne
    have hany : ¬(db.users.any (fun u => u.email == email) = true) := by
      intro h
      obtain ⟨u, hu, he⟩ := List.any_eq_true.mp h
      exact hne ⟨u, hu, by simpa using he⟩
    refine ⟨⟨⟨create_token secret now newId email, ⟨newId, email, name⟩⟩, ?_⟩,
      fun h => h, ?_⟩
    · unfold register
      rw [if_neg hany]
    · intro hnd
      rw [List.map_append, List.nodup_append]
      refine ⟨hnd, List.nodup_singleton _, ?_⟩
      intro a ha hb
      simp only [List.map_cons, List.map_nil, List.mem_singleton] at hb
      subst hb
      obtain ⟨u, hu, he⟩ := List.mem_map.mp ha
      exact hne ⟨u, hu, he⟩

/-- C7 witness: re-registering Alice's email fails with the 400; a fresh
email appends exactly one salted-hash record and keeps emails unique. -/
theorem register_no_duplicate_email_witness :
    register dbEx hashEx "sec" "uid-new" 30 "alice@example.com" "Alice2" "pw2"
      = .error (.http 400 "Email already registered") ∧
    ((∃ tr, register dbEx hashEx "sec" "uid-new" 30 "carol@example.com" "Carol" "pw3"
        = .ok ({ users := dbEx.users ++
                   [⟨"uid-new", "carol@example.com", "Carol", hashEx "pw3", 30⟩],
                 analyses := dbEx.analyses }, tr)) ∧
     (hashEx "pw3" ≠ "pw3" →
       (⟨"uid-new", "carol@example.com", "Carol", hashEx "pw3", 30⟩ : User).password_hash
         ≠ "pw3") ∧
     ((dbEx.users.map User.email).Nodup →
       ((dbEx.users ++
           [(⟨"uid-new", "carol@example.com", "Carol", hashEx "pw3", 30⟩ : User)]).map
           User.email).Nodup)) :=
  ⟨(register_no_duplicate_email dbEx hashEx "sec" "uid-new" 30
      "alice@example.com" "Alice2" "pw2").1 (by decide),
   (register_no_duplicate_email dbEx hashEx "sec" "uid-new" 30
      "carol@example.com" "Carol" "pw3").2 (by decide)⟩

/-- C8: for every store state and user, the history listing holds at most
100 entries, every entry is the projection of a stored analysis owned by
the requesting user, and creation timestamps are non-increasing (newest
first). -/
theorem history_capped_owned_newest_first (db : DB) (u : User) :
    (get_analysis_history db u).length ≤ 100 ∧
    (∀ r ∈ get_analysis_history db u,
       ∃ a ∈ db.analyses, a.user_id = u.id ∧ r = responseOf a) ∧
    (get_analysis_history db u).Pairwise
      (fun r1 r2 => r2.created_at ≤ r1.created_at) := by
  refine ⟨?_, ?_, ?_⟩
  · unfold get_analysis_history
    rw [List.length_map]
    exact List.length_take_le _ _
  · intro r hr
    unfold get_analysis_history at hr
    obtain ⟨a, ha, rfl⟩ := List.mem_map.mp hr
    have ha2 : a ∈ List.insertionSort createdDesc
        (db.analyses.filter (fun x => x.user_id == u.id)) :=
      List.Sublist.mem ha (List.take_sublist _ _)
    have ha3 : a ∈ db.analyses.filter (fun x => x.user_id == u.id) :=
      (List.perm_insertionSort createdDesc _).mem_iff.mp ha2
    obtain ⟨hmem, hpred⟩ := List.mem_filter.mp ha3
    exact ⟨a, hmem, by simpa using hpred, rfl⟩
  · unfold get_analysis_history
    rw [List.pairwise_map]
    have hsorted : (List.insertionSort createdDesc
        (db.analyses.filter (fun x => x.user_id == u.id))).Pairwise createdDesc :=
      List.sorted_insertionSort createdDesc _
    have htake := List.Pairwise.sublist (List.take_sublist 100 _) hsorted
    exact htake.imp (fun h => h)

/-- C8 witness: the capped, owned, newest-first properties at the example
store for Alice. -/
theorem history_capped_owned_newest_first_witness :
    (get_analysis_history dbEx userAlice).length ≤ 100 ∧
    (∀ r ∈ get_analysis_history dbEx userAlice,
       ∃ a ∈ dbEx.analyses, a.user_id = userAlice.id ∧ r = responseOf a) ∧
    (get_analysis_history dbEx userAlice).Pairwise
      (fun r1 r2 => r2.created_at ≤ r1.created_at) :=
  history_capped_owned_newest_first dbEx userAlice

/-- C9: whenever the AI response parses as a JSON object whose
`confidence_score` is the string "85", the coercion turns it into the
integer 85, and both the stored record and the response carry
confidence_score = 85. -/
theorem confidence_string_coerced_to_int (response : String)
    (fields : List (String × Json)) (db : DB) (user : User) (newId : String)
    (now : Nat) (req : CropAnalysisRequest) (img : Option String)
    (db' : DB) (resp : CropAnalysisResponse)
    (hp : json_loads (stripFences response) = some (Json.obj fields))
    (hcs : objGet fields "confidence_score" = some (Json.str "85"))
    (hok : create_analysis db user newId now req img
             (analyze_crop_with_ai response) = .ok (db', resp)) :
    resp.confidence_score = 85 ∧
    ∃ rec, db'.analyses = db.analyses ++ [rec] ∧ rec.confidence_score = 85 := by
  have hana : analyze_crop_with_ai response
      = .ok (upsert fields "confidence_score" (Json.num 85)) := by
    unfold analyze_crop_with_ai
    rw [hp]
    show coerce_confidence fields = _
    unfold coerce_confidence
    rw [hcs]
    rfl
  rw [hana] at hok
  obtain ⟨fs, rec, hfs, hb, hdb, hresp⟩ := create_analysis_ok_inv hok
  cases hfs
  obtain ⟨-, -, -, -, hcget, -, -, -, -⟩ := buildAnalysisRecord_ok hb
  have h85 : getIntField (upsert fields "confidence_score" (Json.num 85))
      "confidence_score" 0 = .ok 85 := by
    unfold getIntField
    rw [objGet_upsert]
  rw [h85] at hcget
  have hconf : (85 : Int) = rec.confidence_score := Except.ok.inj hcget
  subst hdb
  refine ⟨?_, rec, rfl, hconf.symm⟩
  rw [hresp]
  exact hconf.symm

/-- C9 witness: the spec's example response with `"confidence_score":
"85"` run end to end through `analyze_crop_with_ai` and `create_analysis`
stores the integer 85. -/
theorem confidence_string_coerced_to_int_witness :
    (responseOf ⟨"an-11", userAlice.id, reqEx.crop_name, reqEx.growth_stage,
        reqEx.symptoms, reqEx.soil_moisture, reqEx.temperature, reqEx.humidity,
        none, "Early Blight", 85, "", "", "", "Medium", 41⟩).confidence_score
      = 85 ∧
    ∃ rec,
      (⟨dbEx.users, dbEx.analyses ++
          [(⟨"an-11", userAlice.id, reqEx.crop_name, reqEx.growth_stage,
             reqEx.symptoms, reqEx.soil_moisture, reqEx.temperature,
             reqEx.humidity, none, "Early Blight", 85, "", "", "", "Medium",
             41⟩ : CropAnalysis)]⟩ : DB).analyses
        = dbEx.analyses ++ [rec] ∧ rec.confidence_score = 85 :=
  confidence_string_coerced_to_int
    "\x7b\"diagnosis\": \"Early Blight\", \"confidence_score\": \"85\"\x7d"
    [("diagnosis", Json.str "Early Blight"), ("confidence_score", Json.str "85")]
    dbEx userAlice "an-11" 41 reqEx none
    (⟨dbEx.users, dbEx.analyses ++
        [(⟨"an-11", userAlice.id, reqEx.crop_name, reqEx.growth_stage,
           reqEx.symptoms, reqEx.soil_moisture, reqEx.temperature,
           reqEx.humidity, none, "Early Blight", 85, "", "", "", "Medium",
           41⟩ : CropAnalysis)]⟩ : DB)
    (responseOf ⟨"an-11", userAlice.id, reqEx.crop_name, reqEx.growth_stage,
        reqEx.symptoms, reqEx.soil_moisture, reqEx.temperature, reqEx.humidity,
        none, "Early Blight", 85, "", "", "", "Medium", 41⟩)
    rfl rfl rfl

/-- C10: when the parsed AI object lacks a required field, the persisted
record falls back to the fixed default for that field — diagnosis
"Unknown", confidence 0, empty action/treatment/tip strings, risk
"Medium" — and when all six AI fields are absent the full defaulted record
is still persisted. -/
theorem missing_ai_fields_defaulted (db : DB) (user : User) (newId : String)
    (now : Nat) (req : CropAnalysisRequest) (img : Option String)
    (fields : List (String × Json)) :
    (∀ db' resp,
       create_analysis db user newId now req img (.ok fields) = .ok (db', resp) →
       ∃ rec, db'.analyses = db.analyses ++ [rec] ∧
         (objGet fields "diagnosis" = none → rec.diagnosis = "Unknown") ∧
         (objGet fields "confidence_score" = none → rec.confidence_score = 0) ∧
         (objGet fields "immediate_action" = none → rec.immediate_action = "") ∧
         (objGet fields "sustainable_treatment" = none →
            rec.sustainable_treatment = "") ∧
         (objGet fields "resource_efficiency_tip" = none →
            rec.resource_efficiency_tip = "") ∧
         (objGet fields "risk_level" = none → rec.risk_level = "Medium")) ∧
    ((objGet fields "diagnosis" = none ∧
      objGet fields "confidence_score" = none ∧
      objGet fields "immediate_action" = none ∧
      objGet fields "sustainable_treatment" = none ∧
      objGet fields "resource_efficiency_tip" = none ∧
      objGet fields "risk_level" = none) →
      create_analysis db user newId now req img (.ok fields)
        = .ok (⟨db.users, db.analyses ++
                 [(⟨newId, user.id, req.crop_name, req.growth_stage,
                    req.symptoms, req.soil_moisture, req.temperature,
                    req.humidity, img, "Unknown", 0, "", "", "", "Medium",
                    now⟩ : CropAnalysis)]⟩,
               responseOf ⟨newId, user.id, req.crop_name, req.growth_stage,
                    req.symptoms, req.soil_moisture, req.temperature,
                    req.humidity, img, "Unknown", 0, "", "", "", "Medium",
                    now⟩)) := by
  constructor
  · intro db' resp h
    obtain ⟨fs, rec, hfs, hb, hdb, -⟩ := create_analysis_ok_inv h
    cases hfs
    obtain ⟨-, -, -, hd, hcf, hi, hs, ht, hr⟩ := buildAnalysisRecord_ok hb
    subst hdb
    refine ⟨rec, rfl, ?_, ?_, ?_, ?_, ?_, ?_⟩
    · intro hnone
      rw [getStrField_of_none "Unknown" hnone] at hd
      exact (Except.ok.inj hd).symm
    · intro hnone
      rw [getIntField_of_none 0 hnone] at hcf
      exact (Except.ok.inj hcf).symm
    · intro hnone
      rw [getStrField_of_none "" hnone] at hi
      exact (Except.ok.inj hi).symm
    · intro hnone
      rw [getStrField_of_none "" hnone] at hs
      exact (Except.ok.inj hs).symm
    · intro hnone
      rw [getStrField_of_none "" hnone] at ht
      exact (Except.ok.inj ht).symm
    · intro hnone
      rw [getStrField_of_none "Medium" hnone] at hr
      exact (Except.ok.inj hr).symm
  · rintro ⟨h1, h2, h3, h4, h5, h6⟩
    have hb := buildAnalysisRecord_eval newId user now req img
      (getStrField_of_none "Unknown" h1) (getIntField_of_none 0 h2)
      (getStrField_of_none "" h3) (getStrField_of_none "" h4)
      (getStrField_of_none "" h5) (getStrField_of_none "Medium" h6)
    unfold create_analysis
    rw [exceptBindOk, hb, exceptBindOk, exceptPure]

/-- C10 witness: an AI object with none of the six expected keys still
yields a fully persisted record made of the defaults. -/
theorem missing_ai_fields_defaulted_witness :
    create_analysis dbEx userAlice "an-10" 40 reqEx none
        (.ok [("note", Json.str "hello")])
      = .ok (⟨dbEx.users, dbEx.analyses ++
               [(⟨"an-10", userAlice.id, reqEx.crop_name, reqEx.growth_stage,
                  reqEx.symptoms, reqEx.soil_moisture, reqEx.temperature,
                  reqEx.humidity, none, "Unknown", 0, "", "", "", "Medium",
                  40⟩ : CropAnalysis)]⟩,
             responseOf ⟨"an-10", userAlice.id, reqEx.crop_name,
                  reqEx.growth_stage, reqEx.symptoms, reqEx.soil_moisture,
                  reqEx.temperature, reqEx.humidity, none, "Unknown", 0, "",
                  "", "", "Medium", 40⟩) :=
  (missing_ai_fields_defaulted dbEx userAlice "an-10" 40 reqEx none
    [("note", Json.str "hello")]).2 ⟨rfl, rfl, rfl, rfl, rfl, rfl⟩
